import Mathlib

/-!
Verification of the reconciliation logic of `library/apigw_rest_api.py`
(the `ApiGwRestApi` Ansible module).

The module's methods are embedded as pure Lean functions.  The boto3
client is modelled as an explicit remote state (`RemoteState`): the list
of REST APIs the service would return from `get_rest_apis`, together with
the identifier the service would assign to the next created API.  Every
mutating call the module issues is recorded in a `Call` log so that
"exactly one update call is issued" style properties can be stated.
-/

namespace ApiGwRestApi

/-- The module parameters (`self.module.params`): `name` is required,
`description` is optional (`None` when not supplied), `state` defaults to
`"present"` and is kept as a plain string, as `process_request` only ever
compares it against `"absent"`. -/
structure Params where
  name : String
  description : Option String
  state : String
deriving DecidableEq, Repr

/-- A REST API record as returned by the service: an identifier plus the
attributes the module tracks (`name`, `description`).  `description` is
optional, mirroring `api.get('description')` returning `None` when the
key is missing. -/
structure ApiRecord where
  id : Nat
  name : String
  description : Option String
deriving DecidableEq, Repr

/-- The state of the remote collection: the listing order of
`get_rest_apis` and the identifier of the next API to be created. -/
structure RemoteState where
  items : List ApiRecord
  nextId : Nat
deriving DecidableEq, Repr

/-- One JSON-patch operation as passed to `update_rest_api`. -/
structure PatchOp where
  op : String
  path : String
  value : String
deriving DecidableEq, Repr

/-- A mutating call issued against the boto3 client.  `create` records the
`kwargs` actually passed (`description` key present or not), `update`
records the target id and the patch operations, `delete` records the
target id. -/
inductive Call where
  | create (name : String) (description : Option String)
  | update (id : Nat) (patch : List PatchOp)
  | delete (id : Nat)
deriving DecidableEq, Repr

/-- The value bound to the Python variable `api` when it is reported via
`exit_json`: `None`, a REST API record, or the response of a
`delete_rest_api` call (which is not an API record). -/
inductive Reported where
  | noApi
  | api (r : ApiRecord)
  | deleteResponse
deriving DecidableEq, Repr

/-- The outcome of a request: the `changed` flag and reported `api` of
`exit_json`, the remote state after the call, and the log of mutating
calls issued. -/
structure StepResult where
  changed : Bool
  api : Reported
  state : RemoteState
  calls : List Call
deriving DecidableEq, Repr

/-- `ApiGwRestApi._retrieve_rest_api`: list all REST APIs, keep those
whose `name` equals the `name` parameter, and return the first match if
any (`api[0]`), else `None`. -/
def retrieve_rest_api (params : Params) (st : RemoteState) : Option ApiRecord :=
  (st.items.filter (fun r => r.name == params.name)).head?

/-- `ApiGwRestApi._is_changed`: the discovered api differs from the
params when the `name` or the `description` differ; the comparison is on
the raw values (`None` is not identified with the empty string here). -/
def is_changed (api : ApiRecord) (params : Params) : Bool :=
  api.name != params.name || api.description != params.description

/-- Truthiness of `self.module.params.get('description')` in
`_create_api`: `None` and the empty string are falsy. -/
def descTruthy (params : Params) : Bool :=
  match params.description with
  | some d => d != ""
  | none => false

/-- The `description` local of `_update_api`:
`"" if params.get('description') is None else params.get('description')`. -/
def descOrEmpty (params : Params) : String :=
  match params.description with
  | some d => d
  | none => ""

/-- The remote service applying one `replace` patch operation to a
record: `/name` replaces the name, `/description` replaces the
description with the given string. -/
def applyPatchOp (r : ApiRecord) (p : PatchOp) : ApiRecord :=
  if p.op = "replace" then
    if p.path = "/name" then { r with name := p.value }
    else if p.path = "/description" then { r with description := some p.value }
    else r
  else r

/-- The remote service applying a list of patch operations in order. -/
def applyPatch (r : ApiRecord) (ps : List PatchOp) : ApiRecord :=
  ps.foldl applyPatchOp r

/-- `ApiGwRestApi._create_api`: build `kwargs` with the `name` and, only
when truthy, the `description`; unless in check mode, call
`create_rest_api(**kwargs)` (modelled as appending a fresh record to the
collection, the call returning that record); return `(True, api)` where
`api` is `None` when the call was skipped. -/
def create_api (params : Params) (checkMode : Bool) (st : RemoteState) : StepResult :=
  let kwargsDesc : Option String :=
    if descTruthy params then params.description else none
  if checkMode then
    { changed := true, api := .noApi, state := st, calls := [] }
  else
    let r : ApiRecord := { id := st.nextId, name := params.name, description := kwargsDesc }
    { changed := true
      api := .api r
      state := { items := st.items ++ [r], nextId := st.nextId + 1 }
      calls := [.create params.name kwargsDesc] }

/-- `ApiGwRestApi._update_api`: build the fixed two-element patch
(replace `/name` with the name parameter, replace `/description` with the
description-or-empty-string); unless in check mode, call
`update_rest_api` (modelled as patching every record carrying the id, the
call returning the first such record); return `(True, api)` where `api`
is `None` when the call was skipped. -/
def update_api (params : Params) (checkMode : Bool) (st : RemoteState) (id : Nat) : StepResult :=
  let patch : List PatchOp :=
    [{ op := "replace", path := "/name", value := params.name },
     { op := "replace", path := "/description", value := descOrEmpty params }]
  if checkMode then
    { changed := true, api := .noApi, state := st, calls := [] }
  else
    let items2 := st.items.map (fun x => if x.id == id then applyPatch x patch else x)
    { changed := true
      api := match (items2.filter (fun x => x.id == id)).head? with
             | some u => .api u
             | none => .noApi
      state := { st with items := items2 }
      calls := [.update id patch] }

/-- `ApiGwRestApi._maybe_delete_api`: if no api was discovered, return
`(False, None)`; otherwise, unless in check mode, call `delete_rest_api`
(modelled as removing the records carrying the id) and rebind `api` to
that call's response, and return `(True, api)` — so in check mode the
pre-delete record is reported, and otherwise the delete response is. -/
def maybe_delete_api (checkMode : Bool) (st : RemoteState) (api : Option ApiRecord) : StepResult :=
  match api with
  | none => { changed := false, api := .noApi, state := st, calls := [] }
  | some r =>
    if checkMode then
      { changed := true, api := .api r, state := st, calls := [] }
    else
      { changed := true
        api := .deleteResponse
        state := { st with items := st.items.filter (fun x => x.id != r.id) }
        calls := [.delete r.id] }

/-- `ApiGwRestApi._create_or_update_api`: create when no api was
discovered, update when the discovered api differs from the params,
otherwise `(False, api)` with the discovered api. -/
def create_or_update_api (params : Params) (checkMode : Bool) (st : RemoteState)
    (api : Option ApiRecord) : StepResult :=
  match api with
  | none => create_api params checkMode st
  | some r =>
    if is_changed r params then update_api params checkMode st r.id
    else { changed := false, api := .api r, state := st, calls := [] }

/-- `ApiGwRestApi.process_request`: retrieve the api by name, then branch
on `state == 'absent'` to delete, and to create-or-update otherwise. -/
def process_request (params : Params) (checkMode : Bool) (st : RemoteState) : StepResult :=
  if params.state = "absent" then
    maybe_delete_api checkMode st (retrieve_rest_api params st)
  else
    create_or_update_api params checkMode st (retrieve_rest_api params st)

/-- Modelled from the spec's words, for comparison with `is_changed`
(claim C3): field-by-field equality over the tracked attributes where a
string attribute absent in the desired state is treated as the empty
string. -/
def is_changed_spec (api : ApiRecord) (params : Params) : Bool :=
  api.name != params.name ||
    (api.description.getD "") != (params.description.getD "")

/-! ## Helper lemmas -/

/-- The head of a filtered list is a member of the list satisfying the
predicate. -/
theorem head?_filter_mem {α : Type} {p : α → Bool} {l : List α} {a : α}
    (h : (l.filter p).head? = some a) : a ∈ l ∧ p a := by
  have ha : a ∈ l.filter p := by
    cases hl : l.filter p with
    | nil => rw [hl] at h; cases h
    | cons b t =>
      rw [hl] at h
      simp only [List.head?_cons, Option.some.injEq] at h
      subst h
      exact List.mem_cons_self ..
  exact List.mem_filter.mp ha

/-- A filtered list of length at most one whose head is `a` is exactly
`[a]`. -/
theorem filter_eq_singleton {α : Type} {p : α → Bool} {l : List α} {a : α}
    (h : (l.filter p).head? = some a) (hlen : (l.filter p).length ≤ 1) :
    l.filter p = [a] := by
  cases hl : l.filter p with
  | nil => rw [hl] at h; cases h
  | cons b t =>
    rw [hl] at h hlen
    simp only [List.head?_cons, Option.some.injEq] at h
    cases t with
    | nil => rw [h]
    | cons c u => simp at hlen

/-! ## Claims -/

/-- C9: `_retrieve_rest_api` returns the first listed entry whose name
equals the desired name, and `None` exactly when no entry matches; when
several entries share the name, the first one (in listing order) is
returned and the later duplicates are ignored. -/
theorem C9_lookup_first_match (params : Params) (st : RemoteState) :
    (retrieve_rest_api params st = none ↔ ∀ r ∈ st.items, r.name ≠ params.name) ∧
    (∀ l1 r l2, st.items = l1 ++ r :: l2 → r.name = params.name →
      (∀ x ∈ l1, x.name ≠ params.name) → retrieve_rest_api params st = some r) := by
  constructor
  · unfold retrieve_rest_api
    rw [List.head?_eq_none_iff, List.filter_eq_nil_iff]
    simp
  · intro l1 r l2 hst hr hl1
    unfold retrieve_rest_api
    rw [hst, List.filter_append]
    have h1 : l1.filter (fun x => x.name == params.name) = [] := by
      rw [List.filter_eq_nil_iff]
      intro x hx
      simpa using hl1 x hx
    rw [h1, List.filter_cons]
    simp [hr]

/-- C9 witness: on a collection listing a non-matching entry, then two
entries named `a`, lookup of `a` returns the first of the two. -/
theorem C9_lookup_first_match_witness :
    retrieve_rest_api ⟨"a", none, "present"⟩
      ⟨[⟨0, "b", none⟩, ⟨1, "a", none⟩, ⟨2, "a", some "dup"⟩], 3⟩ = some ⟨1, "a", none⟩ :=
  (C9_lookup_first_match ⟨"a", none, "present"⟩
      ⟨[⟨0, "b", none⟩, ⟨1, "a", none⟩, ⟨2, "a", some "dup"⟩], 3⟩).2
    [⟨0, "b", none⟩] ⟨1, "a", none⟩ [⟨2, "a", some "dup"⟩] rfl rfl (by decide)

/-- C10: `process_request` takes the delete branch exactly when the
`state` parameter is the string `"absent"`; any other value of `state`
is handled by the create-or-update branch, and then no delete call is
ever issued. -/
theorem C10_delete_branch_iff_absent (params : Params) (checkMode : Bool) (st : RemoteState) :
    (params.state = "absent" →
      process_request params checkMode st =
        maybe_delete_api checkMode st (retrieve_rest_api params st)) ∧
    (params.state ≠ "absent" →
      process_request params checkMode st =
        create_or_update_api params checkMode st (retrieve_rest_api params st)) ∧
    (params.state ≠ "absent" →
      ∀ i, Call.delete i ∉ (process_request params checkMode st).calls) := by
  refine ⟨fun h => by rw [process_request, if_pos h],
          fun h => by rw [process_request, if_neg h], fun h i => ?_⟩
  rw [process_request, if_neg h]
  cases hret : retrieve_rest_api params st with
  | none => cases checkMode <;> simp [create_or_update_api, create_api]
  | some r =>
    cases hc : is_changed r params <;> cases checkMode <;>
      simp [create_or_update_api, hc, update_api]

/-- C10 witness: with `state="absent"` the delete branch runs; with the
non-`present` value `state="ensure"` the create-or-update branch runs
and no delete call is issued. -/
theorem C10_delete_branch_iff_absent_witness :
    (process_request ⟨"a", none, "absent"⟩ false ⟨[], 0⟩ =
      maybe_delete_api false ⟨[], 0⟩ (retrieve_rest_api ⟨"a", none, "absent"⟩ ⟨[], 0⟩)) ∧
    (process_request ⟨"a", none, "ensure"⟩ false ⟨[], 0⟩ =
      create_or_update_api ⟨"a", none, "ensure"⟩ false ⟨[], 0⟩
        (retrieve_rest_api ⟨"a", none, "ensure"⟩ ⟨[], 0⟩)) ∧
    Call.delete 0 ∉ (process_request ⟨"a", none, "ensure"⟩ false ⟨[], 0⟩).calls :=
  ⟨(C10_delete_branch_iff_absent ⟨"a", none, "absent"⟩ false ⟨[], 0⟩).1 rfl,
   (C10_delete_branch_iff_absent ⟨"a", none, "ensure"⟩ false ⟨[], 0⟩).2.1 (by decide),
   (C10_delete_branch_iff_absent ⟨"a", none, "ensure"⟩ false ⟨[], 0⟩).2.2 (by decide) 0⟩

/-- C8: with `state="absent"` and no matching remote resource,
`process_request` reports `changed=false` with `api=None`, issues no
mutating call, and leaves the remote collection untouched. -/
theorem C8_absent_no_match (params : Params) (st : RemoteState)
    (hs : params.state = "absent")
    (hret : retrieve_rest_api params st = none) :
    (process_request params false st).changed = false ∧
    (process_request params false st).api = Reported.noApi ∧
    (process_request params false st).calls = [] ∧
    (process_request params false st).state = st := by
  rw [process_request, if_pos hs, hret, maybe_delete_api]
  exact ⟨rfl, rfl, rfl, rfl⟩

/-- C8 witness: deleting the absent api `a` from a collection holding
only `b` changes nothing. -/
theorem C8_absent_no_match_witness :
    (process_request ⟨"a", none, "absent"⟩ false ⟨[⟨0, "b", none⟩], 1⟩).changed = false ∧
    (process_request ⟨"a", none, "absent"⟩ false ⟨[⟨0, "b", none⟩], 1⟩).api = Reported.noApi ∧
    (process_request ⟨"a", none, "absent"⟩ false ⟨[⟨0, "b", none⟩], 1⟩).calls = [] ∧
    (process_request ⟨"a", none, "absent"⟩ false ⟨[⟨0, "b", none⟩], 1⟩).state =
      ⟨[⟨0, "b", none⟩], 1⟩ :=
  C8_absent_no_match ⟨"a", none, "absent"⟩ ⟨[⟨0, "b", none⟩], 1⟩ rfl (by decide)

/-- C3 counterexample: for a remote whose description is the empty
string and a desired state with no description, `_is_changed` reports a
difference, while under the claimed absent-is-empty-string convention no
tracked attribute differs. -/
theorem C3_counterexample :
    is_changed ⟨0, "a", some ""⟩ ⟨"a", none, "present"⟩ = true ∧
    is_changed_spec ⟨0, "a", some ""⟩ ⟨"a", none, "present"⟩ = false := by
  decide

/-- C3 (amended): `_is_changed` is field-by-field equality over the raw
tracked attributes: it returns true iff the name differs or the optional
description differs, with an absent description compared as `None`, not
as the empty string (the empty-string defaulting happens only when
`_update_api` builds its patch). -/
theorem C3_diff_raw_field_equality (api : ApiRecord) (params : Params) :
    is_changed api params = true ↔
      (api.name ≠ params.name ∨ api.description ≠ params.description) := by
  simp [is_changed]

/-- C6: in check mode no mutating call is issued on any branch and the
remote collection is untouched, while the reported `changed` flag equals
the one the same request returns with check mode off. -/
theorem C6_simulate_no_calls_same_changed (params : Params) (st : RemoteState) :
    (process_request params true st).calls = [] ∧
    (process_request params true st).state = st ∧
    (process_request params true st).changed = (process_request params false st).changed := by
  unfold process_request
  by_cases hs : params.state = "absent"
  · rw [if_pos hs, if_pos hs]
    cases retrieve_rest_api params st with
    | none => simp [maybe_delete_api]
    | some r => simp [maybe_delete_api]
  · rw [if_neg hs, if_neg hs]
    cases retrieve_rest_api params st with
    | none => simp [create_or_update_api, create_api]
    | some r =>
      cases hc : is_changed r params <;>
        simp [create_or_update_api, hc, update_api]

/-- C7 counterexample: with a provided but empty description,
`_create_api` issues the create call without the description attribute
(the truthiness guard `if params.get('description'):` drops it). -/
theorem C7_counterexample :
    (⟨"a", some "", "present"⟩ : Params).description = some "" ∧
    (process_request ⟨"a", some "", "present"⟩ false ⟨[], 0⟩).calls =
      [Call.create "a" none] := by
  decide

/-- C7 (amended): with `state` other than `"absent"` and no matching
remote resource, exactly one create call is issued carrying the name and
the description exactly when the provided description is non-empty, and
`changed=true` is reported. -/
theorem C7_create_once_with_truthy_description (params : Params) (st : RemoteState)
    (hs : params.state ≠ "absent")
    (hret : retrieve_rest_api params st = none) :
    (process_request params false st).changed = true ∧
    (process_request params false st).calls =
      [Call.create params.name (if descTruthy params then params.description else none)] := by
  rw [process_request, if_neg hs, hret, create_or_update_api]
  rw [create_api]
  simp

/-- C7 witness: creating `docs.example.io` with description `v1` in an
empty collection issues one create call carrying both attributes. -/
theorem C7_create_once_with_truthy_description_witness :
    (process_request ⟨"docs.example.io", some "v1", "present"⟩ false ⟨[], 0⟩).changed = true ∧
    (process_request ⟨"docs.example.io", some "v1", "present"⟩ false ⟨[], 0⟩).calls =
      [Call.create "docs.example.io"
        (if descTruthy ⟨"docs.example.io", some "v1", "present"⟩
         then (⟨"docs.example.io", some "v1", "present"⟩ : Params).description else none)] :=
  C7_create_once_with_truthy_description ⟨"docs.example.io", some "v1", "present"⟩ ⟨[], 0⟩
    (by decide) (by decide)

/-- C5 counterexample: deleting an existing api (not in check mode)
reports the `delete_rest_api` response, which is not the pre-delete
snapshot of the remote resource. -/
theorem C5_counterexample :
    (process_request ⟨"a", none, "absent"⟩ false ⟨[⟨0, "a", some "v1"⟩], 1⟩).api =
      Reported.deleteResponse ∧
    Reported.deleteResponse ≠ Reported.api ⟨0, "a", some "v1"⟩ := by
  decide

/-- C5 (amended): with `state="absent"` and a matching remote resource,
`process_request` (not in check mode) issues exactly one delete call for
that resource's id, removes it from the collection, and reports
`changed=true` — but the reported resource is the delete call's
response, not the pre-delete snapshot (the snapshot is reported only in
check mode). -/
theorem C5_delete_once_reports_response (params : Params) (st : RemoteState) (r : ApiRecord)
    (hs : params.state = "absent")
    (hret : retrieve_rest_api params st = some r) :
    (process_request params false st).changed = true ∧
    (process_request params false st).calls = [Call.delete r.id] ∧
    (process_request params false st).api = Reported.deleteResponse ∧
    (process_request params false st).state =
      { st with items := st.items.filter (fun x => x.id != r.id) } := by
  rw [process_request, if_pos hs, hret, maybe_delete_api]
  simp

/-- C5 witness: deleting the api named `a` with id 0. -/
theorem C5_delete_once_reports_response_witness :
    (process_request ⟨"a", none, "absent"⟩ false ⟨[⟨0, "a", some "v1"⟩], 1⟩).changed = true ∧
    (process_request ⟨"a", none, "absent"⟩ false ⟨[⟨0, "a", some "v1"⟩], 1⟩).calls =
      [Call.delete (⟨0, "a", some "v1"⟩ : ApiRecord).id] ∧
    (process_request ⟨"a", none, "absent"⟩ false ⟨[⟨0, "a", some "v1"⟩], 1⟩).api =
      Reported.deleteResponse ∧
    (process_request ⟨"a", none, "absent"⟩ false ⟨[⟨0, "a", some "v1"⟩], 1⟩).state =
      { items :=
          ([⟨0, "a", some "v1"⟩] : List ApiRecord).filter
            (fun x => x.id != (⟨0, "a", some "v1"⟩ : ApiRecord).id),
        nextId := 1 } :=
  C5_delete_once_reports_response ⟨"a", none, "absent"⟩ ⟨[⟨0, "a", some "v1"⟩], 1⟩
    ⟨0, "a", some "v1"⟩ rfl (by decide)

/-- C2 counterexample: in check mode, on the update branch (matching
remote that differs), the reported resource is `None`, not the
pre-update remote resource. -/
theorem C2_counterexample :
    retrieve_rest_api ⟨"a", some "v2", "present"⟩ ⟨[⟨0, "a", some "v1"⟩], 1⟩ =
      some ⟨0, "a", some "v1"⟩ ∧
    is_changed ⟨0, "a", some "v1"⟩ ⟨"a", some "v2", "present"⟩ = true ∧
    (process_request ⟨"a", some "v2", "present"⟩ true ⟨[⟨0, "a", some "v1"⟩], 1⟩).api =
      Reported.noApi ∧
    Reported.noApi ≠ Reported.api ⟨0, "a", some "v1"⟩ := by
  decide

/-- C2 (amended): in check mode the reported resource is `None` on the
create branch, `None` on the update branch as well (the pre-update
remote is not reported, since `_update_api` returns the skipped call's
`None`), and the pre-delete remote on the delete branch. -/
theorem C2_simulate_reported_resource (params : Params) (st : RemoteState) :
    (params.state ≠ "absent" → retrieve_rest_api params st = none →
      (process_request params true st).api = Reported.noApi) ∧
    (∀ r, params.state ≠ "absent" → retrieve_rest_api params st = some r →
      is_changed r params = true →
      (process_request params true st).api = Reported.noApi) ∧
    (∀ r, params.state = "absent" → retrieve_rest_api params st = some r →
      (process_request params true st).api = Reported.api r) := by
  refine ⟨fun h1 h2 => ?_, fun r h1 h2 h3 => ?_, fun r h1 h2 => ?_⟩
  · rw [process_request, if_neg h1, h2, create_or_update_api, create_api]
    simp
  · rw [process_request, if_neg h1, h2, create_or_update_api]
    rw [if_pos h3, update_api]
    simp
  · rw [process_request, if_pos h1, h2, maybe_delete_api]
    simp

/-- C2 witness: the three check-mode branches at concrete inputs —
create reports `None`, update reports `None`, delete reports the
pre-delete remote. -/
theorem C2_simulate_reported_resource_witness :
    (process_request ⟨"a", some "v1", "present"⟩ true ⟨[], 0⟩).api = Reported.noApi ∧
    (process_request ⟨"a", some "v2", "present"⟩ true ⟨[⟨0, "a", some "v1"⟩], 1⟩).api =
      Reported.noApi ∧
    (process_request ⟨"a", none, "absent"⟩ true ⟨[⟨0, "a", some "v1"⟩], 1⟩).api =
      Reported.api ⟨0, "a", some "v1"⟩ :=
  ⟨(C2_simulate_reported_resource ⟨"a", some "v1", "present"⟩ ⟨[], 0⟩).1
      (by decide) (by decide),
   (C2_simulate_reported_resource ⟨"a", some "v2", "present"⟩ ⟨[⟨0, "a", some "v1"⟩], 1⟩).2.1
      ⟨0, "a", some "v1"⟩ (by decide) (by decide) (by decide),
   (C2_simulate_reported_resource ⟨"a", none, "absent"⟩ ⟨[⟨0, "a", some "v1"⟩], 1⟩).2.2
      ⟨0, "a", some "v1"⟩ rfl (by decide)⟩

/-- C1 counterexample: on the update branch the single update call's
patch contains a replace of `/name` although the remote name equals the
desired name (a looked-up resource always has the desired name), so the
patch is not restricted to the differing fields. -/
theorem C1_counterexample :
    retrieve_rest_api ⟨"a", some "v2", "present"⟩ ⟨[⟨0, "a", some "v1"⟩], 1⟩ =
      some ⟨0, "a", some "v1"⟩ ∧
    (⟨0, "a", some "v1"⟩ : ApiRecord).name = (⟨"a", some "v2", "present"⟩ : Params).name ∧
    (process_request ⟨"a", some "v2", "present"⟩ false ⟨[⟨0, "a", some "v1"⟩], 1⟩).calls =
      [Call.update 0 [⟨"replace", "/name", "a"⟩, ⟨"replace", "/description", "v2"⟩]] := by
  decide

/-- C1 (amended): with `state` other than `"absent"`, a matching remote
resource and a detected difference, `process_request` (not in check
mode) issues exactly one update call whose patch replaces both tracked
fields — the name with the desired name and the description with the
desired description (empty string when absent) — and reports
`changed=true`. -/
theorem C1_update_once_patches_all_tracked (params : Params) (st : RemoteState)
    (r : ApiRecord)
    (hs : params.state ≠ "absent")
    (hret : retrieve_rest_api params st = some r)
    (hdiff : is_changed r params = true) :
    (process_request params false st).changed = true ∧
    (process_request params false st).calls =
      [Call.update r.id
        [{ op := "replace", path := "/name", value := params.name },
         { op := "replace", path := "/description", value := descOrEmpty params }]] := by
  rw [process_request, if_neg hs, hret, create_or_update_api]
  rw [if_pos hdiff, update_api]
  simp

/-- C1 witness: updating api 0 named `a` from description `v1` to `v2`
issues one update call patching both `/name` and `/description`. -/
theorem C1_update_once_patches_all_tracked_witness :
    (process_request ⟨"a", some "v2", "present"⟩ false ⟨[⟨0, "a", some "v1"⟩], 1⟩).changed =
      true ∧
    (process_request ⟨"a", some "v2", "present"⟩ false ⟨[⟨0, "a", some "v1"⟩], 1⟩).calls =
      [Call.update (⟨0, "a", some "v1"⟩ : ApiRecord).id
        [{ op := "replace", path := "/name",
           value := (⟨"a", some "v2", "present"⟩ : Params).name },
         { op := "replace", path := "/description",
           value := descOrEmpty ⟨"a", some "v2", "present"⟩ }]] :=
  C1_update_once_patches_all_tracked ⟨"a", some "v2", "present"⟩ ⟨[⟨0, "a", some "v1"⟩], 1⟩
    ⟨0, "a", some "v1"⟩ (by decide) (by decide) (by decide)



/-- C4 counterexample: desired state `{name:"a", description absent,
state:"present"}` against a remote `{id:0, name:"a", description:"v1"}`:
the first run updates (patching the description to the empty string) and
reports `changed=true`, and the second run, on the resulting remote
state, again reports `changed=true` (the stored empty string compares
unequal to the absent description), so reconcile is not idempotent as
claimed. -/
theorem C4_counterexample :
    (process_request ⟨"a", none, "present"⟩ false ⟨[⟨0, "a", some "v1"⟩], 1⟩).changed = true ∧
    (process_request ⟨"a", none, "present"⟩ false
      (process_request ⟨"a", none, "present"⟩ false
        ⟨[⟨0, "a", some "v1"⟩], 1⟩).state).changed = true := by
  decide

/-- C4 (amended): two successive non-check-mode runs yield
`changed=true` then `changed=false`, provided the desired description is
a non-empty string (otherwise the empty-string/`None` mismatch between
`_update_api` and `_is_changed`, or the truthiness guard of
`_create_api`, breaks idempotence) and at most one listed remote
resource carries the desired name (the spec's stated invariant). -/
theorem C4_idempotent_nonempty_description (params : Params) (st : RemoteState) (d : String)
    (hd : params.description = some d) (hne : d ≠ "")
    (huniq : (st.items.filter (fun x => x.name == params.name)).length ≤ 1)
    (h1 : (process_request params false st).changed = true) :
    (process_request params false (process_request params false st).state).changed = false := by
  by_cases hs : params.state = "absent"
  · cases hret : retrieve_rest_api params st with
    | none =>
      rw [process_request, if_pos hs, hret, maybe_delete_api] at h1
      cases h1
    | some r =>
      have hret' : (st.items.filter (fun x => x.name == params.name)).head? = some r := hret
      have hsingle := filter_eq_singleton hret' huniq
      have hrun1 : (process_request params false st).state =
          { st with items := st.items.filter (fun x => x.id != r.id) } := by
        rw [process_request, if_pos hs, hret, maybe_delete_api]
        rfl
      rw [hrun1]
      have hnone : retrieve_rest_api params
          { st with items := st.items.filter (fun x => x.id != r.id) } = none := by
        unfold retrieve_rest_api
        rw [List.head?_eq_none_iff, List.filter_eq_nil_iff]
        intro x hx hpx
        have hx' := List.mem_filter.mp hx
        have hxr : x = r := by
          have hmemx : x ∈ st.items.filter (fun y => y.name == params.name) :=
            List.mem_filter.mpr ⟨hx'.1, hpx⟩
          rw [hsingle] at hmemx
          simpa using hmemx
        rw [hxr] at hx'
        simp at hx'
      rw [process_request, if_pos hs, hnone, maybe_delete_api]
  · cases hret : retrieve_rest_api params st with
    | none =>
      have hret' : (st.items.filter (fun x => x.name == params.name)).head? = none := hret
      have hnil : st.items.filter (fun x => x.name == params.name) = [] :=
        List.head?_eq_none_iff.mp hret'
      have htruthy : descTruthy params = true := by simp [descTruthy, hd, hne]
      have hrun1 : (process_request params false st).state =
          { items := st.items ++
              [{ id := st.nextId, name := params.name, description := some d }],
            nextId := st.nextId + 1 } := by
        rw [process_request, if_neg hs, hret, create_or_update_api, create_api]
        simp [htruthy, hd]
      rw [hrun1]
      have hret2 : retrieve_rest_api params
          { items := st.items ++
              [{ id := st.nextId, name := params.name, description := some d }],
            nextId := st.nextId + 1 } =
          some { id := st.nextId, name := params.name, description := some d } := by
        unfold retrieve_rest_api
        simp only [List.filter_append, hnil, List.nil_append]
        simp [List.filter_cons]
      rw [process_request, if_neg hs, hret2, create_or_update_api]
      have hcnew : is_changed
          { id := st.nextId, name := params.name, description := some d } params = false := by
        simp [is_changed, hd]
      rw [if_neg (by simp [hcnew])]
    | some r =>
      cases hc : is_changed r params with
      | false =>
        rw [process_request, if_neg hs, hret, create_or_update_api, if_neg (by simp [hc])] at h1
        cases h1
      | true =>
        have hret' : (st.items.filter (fun x => x.name == params.name)).head? = some r := hret
        have hsingle := filter_eq_singleton hret' huniq
        have hrpmem := head?_filter_mem hret'
        have hitems : (process_request params false st).state.items =
            st.items.map (fun x => if x.id == r.id then applyPatch x
              [{ op := "replace", path := "/name", value := params.name },
               { op := "replace", path := "/description", value := descOrEmpty params }]
              else x) := by
          rw [process_request, if_neg hs, hret, create_or_update_api, if_pos hc, update_api]
          rfl
        have happ : ∀ x : ApiRecord,
            applyPatch x
              [{ op := "replace", path := "/name", value := params.name },
               { op := "replace", path := "/description", value := descOrEmpty params }] =
              { id := x.id, name := params.name, description := some d } := by
          intro x
          simp [applyPatch, applyPatchOp, descOrEmpty, hd]
        have hb : ({ id := r.id, name := params.name, description := some d } : ApiRecord) ∈
            (process_request params false st).state.items := by
          rw [hitems]
          refine List.mem_map.mpr ⟨r, hrpmem.1, ?_⟩
          simp [happ]
        cases hret2 : retrieve_rest_api params (process_request params false st).state with
        | none =>
          exfalso
          have hnil2 : (process_request params false st).state.items.filter
              (fun x => x.name == params.name) = [] :=
            List.head?_eq_none_iff.mp hret2
          have hmem2 : ({ id := r.id, name := params.name, description := some d } :
              ApiRecord) ∈ (process_request params false st).state.items.filter
              (fun x => x.name == params.name) :=
            List.mem_filter.mpr ⟨hb, by simp⟩
          rw [hnil2] at hmem2
          cases hmem2
        | some y =>
          have hret2' : ((process_request params false st).state.items.filter
              (fun x => x.name == params.name)).head? = some y := hret2
          have hy := head?_filter_mem hret2'
          rcases List.mem_map.mp (hitems ▸ hy.1) with ⟨x, hx, hfx⟩
          by_cases hid : (x.id == r.id) = true
          · rw [if_pos hid, happ] at hfx
            have hcy : is_changed y params = false := by
              rw [← hfx]
              simp [is_changed, hd]
            rw [process_request, if_neg hs, hret2, create_or_update_api,
              if_neg (by simp [hcy])]
          · rw [if_neg hid] at hfx
            exfalso
            apply hid
            have hxr : x = r := by
              have hmemx : x ∈ st.items.filter (fun z => z.name == params.name) :=
                List.mem_filter.mpr ⟨hx, by rw [hfx]; exact hy.2⟩
              rw [hsingle] at hmemx
              simpa using hmemx
            rw [hxr]
            simp


/-- C4 witness: updating api 0 named `a` from description `v1` to `v2`
reports `changed=true` and a second run reports `changed=false`. -/
theorem C4_idempotent_nonempty_description_witness :
    (process_request ⟨"a", some "v2", "present"⟩ false
      (process_request ⟨"a", some "v2", "present"⟩ false
        ⟨[⟨0, "a", some "v1"⟩], 1⟩).state).changed = false :=
  C4_idempotent_nonempty_description ⟨"a", some "v2", "present"⟩ ⟨[⟨0, "a", some "v1"⟩], 1⟩
    "v2" rfl (by decide) (by decide) (by decide)

end ApiGwRestApi
